import Mathlib

/-!
Verification of the session-gate / quota / URL-extraction logic of
`app.py` (YouTube Transcript Downloader + Chatbot).

The definitions below are a shallow embedding of the Python source:
pure helper functions (`youtube_id`, `bump_counter`, `save_transcript`)
become Lean functions, and the straight-line Streamlit gate code
(approval gate, Chatbot branch) becomes an explicit mode-resolution
function over an explicit `Profile` / `Session` data model.

The URL handling embeds the parts of CPython `urllib.parse` that
`youtube_id` uses (`urlparse`, the `hostname` accessor, `parse_qs`).
Percent-decoding is modelled at the byte level (each `%XX` becomes the
character with code `XX`); CPython additionally UTF-8-decodes the byte
sequence, which differs only on non-ASCII percent-encoded input, and
Python's Unicode `str.lower` is modelled as ASCII lowercasing.  The
bracketed-host validation that can raise `ValueError` in CPython is not
modelled; no claim involves such inputs.
-/

namespace YtApp

/-! ## Character and list helpers mirroring Python string primitives -/

/-- ASCII lowercasing of one character (`str.lower` restricted to ASCII). -/
def asciiLowerChar (c : Char) : Char :=
  if 'A' ≤ c ∧ c ≤ 'Z' then Char.ofNat (c.toNat + 32) else c

/-- ASCII lowercase of a character list. -/
def asciiLower (l : List Char) : List Char := l.map asciiLowerChar

/-- Characters of CPython `_WHATWG_C0_CONTROL_OR_SPACE` (codes 0x00–0x20). -/
def isC0OrSpace (c : Char) : Bool := c.toNat ≤ 0x20

/-- CPython `_UNSAFE_URL_BYTES_TO_REMOVE`: tab, CR, LF. -/
def isUnsafeUrlByte (c : Char) : Bool := c == '\t' || c == '\r' || c == '\n'

/-- Characters allowed in a URL scheme (`scheme_chars`): ASCII letters,
digits, `+`, `-`, `.`. -/
def isSchemeChar (c : Char) : Bool :=
  c.isAlpha || c.isDigit || c == '+' || c == '-' || c == '.'

/-- Split a list at the first occurrence of `sep` (Python `split(sep, 1)`):
`none` when `sep` does not occur, else the parts before and after it. -/
def splitAtFirst (sep : Char) : List Char → Option (List Char × List Char)
  | [] => none
  | c :: rest =>
    if c = sep then some ([], rest)
    else (splitAtFirst sep rest).map (fun p => (c :: p.1, p.2))

/-- Split a list on every occurrence of `sep` (Python `split(sep)`;
the empty list yields `[[]]`, as `"".split(sep)` yields `['']`). -/
def splitOn (sep : Char) : List Char → List (List Char)
  | [] => [[]]
  | c :: rest =>
    if c = sep then [] :: splitOn sep rest
    else
      match splitOn sep rest with
      | [] => [[c]]
      | h :: t => (c :: h) :: t

/-- The part of `l` after the last occurrence of `sep` (the last component
of Python `rpartition`; the whole list when `sep` is absent). -/
def afterLast (sep : Char) (l : List Char) : List Char :=
  (l.reverse.takeWhile (fun c => !(c == sep))).reverse

/-- The part of `l` before the first occurrence of `sep` (the first
component of Python `partition`; the whole list when `sep` is absent). -/
def beforeFirst (sep : Char) (l : List Char) : List Char :=
  l.takeWhile (fun c => !(c == sep))

/-- Hexadecimal digit value, `none` for a non-hex character
(CPython `_hextobyte` accepts both cases). -/
def hexDigit (c : Char) : Option Nat :=
  if '0' ≤ c ∧ c ≤ '9' then some (c.toNat - '0'.toNat)
  else if 'a' ≤ c ∧ c ≤ 'f' then some (c.toNat - 'a'.toNat + 10)
  else if 'A' ≤ c ∧ c ≤ 'F' then some (c.toNat - 'A'.toNat + 10)
  else none

/-- Decoding of the pieces after each `%` in CPython `unquote`: a piece
starting with two hex digits has them decoded, otherwise the piece is kept
verbatim behind its `%`. -/
def unquoteBits : List (List Char) → List Char
  | [] => []
  | bit :: rest =>
    (match bit with
     | a :: b :: tail =>
       match hexDigit a, hexDigit b with
       | some x, some y => Char.ofNat (16 * x + y) :: tail
       | _, _ => '%' :: bit
     | _ => '%' :: bit) ++ unquoteBits rest

/-- CPython `urllib.parse.unquote`, modelled at the byte level: the string
is split on `%` (as in CPython); each later piece starting with two hex
digits has them decoded to the character with that code, and invalid
escapes are kept verbatim.  (CPython additionally decodes the resulting
byte run as UTF-8, which coincides with this model on ASCII escapes.) -/
def pyUnquote (l : List Char) : List Char :=
  match splitOn '%' l with
  | [] => []
  | first :: rest => first ++ unquoteBits rest

/-- `unquote(s.replace('+', ' '))` as applied by `parse_qsl` to each
name and value. -/
def pyUnquotePlus (l : List Char) : List Char :=
  pyUnquote (l.map (fun c => if c = '+' then ' ' else c))

/-! ## CPython `urllib.parse.urlparse` (the parts `youtube_id` uses) -/

/-- Index of the last occurrence of `c` in `l` (Python `rfind`), `none`
when absent. -/
def lastIdxOf (c : Char) (l : List Char) : Option Nat :=
  (l.reverse.findIdx? (fun x => x == c)).map (fun r => l.length - 1 - r)

/-- Index of the first occurrence of `c` in `l` at position `≥ start`
(Python `find(c, start)`), `none` when absent. -/
def findIdxFrom (c : Char) (start : Nat) (l : List Char) : Option Nat :=
  ((l.drop start).findIdx? (fun x => x == c)).map (fun i => i + start)

/-- CPython `_splitparams`: split `;params` off the last path segment.
Only called when `;` occurs in the path. -/
def pySplitparams (path : List Char) : List Char × List Char :=
  if path.contains '/' then
    match lastIdxOf '/' path with
    | none => (path, [])
    | some r =>
      match findIdxFrom ';' r path with
      | none => (path, [])
      | some i => (path.take i, path.drop (i + 1))
  else
    match splitAtFirst ';' path with
    | none => (path, [])
    | some (pre, post) => (pre, post)

/-- Result of CPython `urlsplit` (over character lists). -/
structure SplitResult where
  scheme : List Char
  netloc : List Char
  path : List Char
  query : List Char
  fragment : List Char
deriving DecidableEq, Repr

/-- Scheme recognition of `urlsplit`: the prefix before the first `:` is
the scheme when it is nonempty, starts with an ASCII letter, and consists
of scheme characters; it is lowercased.  Otherwise the URL is unchanged. -/
def splitScheme (url : List Char) : List Char × List Char :=
  match splitAtFirst ':' url with
  | none => ([], url)
  | some (pre, post) =>
    match pre with
    | [] => ([], url)
    | c0 :: _ =>
      if c0.isAlpha && pre.all isSchemeChar then (asciiLower pre, post)
      else ([], url)

/-- CPython `_splitnetloc`: after a leading `//`, the netloc extends to the
first of `/`, `?`, `#`; the remainder keeps the delimiter. -/
def splitNetlocPart (url : List Char) : List Char × List Char :=
  match url with
  | '/' :: '/' :: rest =>
    (rest.takeWhile (fun c => !(c == '/' || c == '?' || c == '#')),
     rest.dropWhile (fun c => !(c == '/' || c == '?' || c == '#')))
  | _ => ([], url)

/-- CPython `urlsplit` (with `allow_fragments=True`): left-strip
control/space characters, remove tab/CR/LF, then split off scheme, netloc,
fragment (at the first `#`) and query (at the first `?`). -/
def pyUrlsplit (urlStr : String) : SplitResult :=
  let url0 := (urlStr.data.dropWhile isC0OrSpace).filter (fun c => !isUnsafeUrlByte c)
  let sp := splitScheme url0
  let np := splitNetlocPart sp.2
  let fp := match splitAtFirst '#' np.2 with
    | none => (np.2, ([] : List Char))
    | some (a, b) => (a, b)
  let qp := match splitAtFirst '?' fp.1 with
    | none => (fp.1, ([] : List Char))
    | some (a, b) => (a, b)
  ⟨sp.1, np.1, qp.1, qp.2, fp.2⟩

/-- Result of CPython `urlparse`. -/
structure ParseResult where
  scheme : String
  netloc : String
  path : String
  params : String
  query : String
  fragment : String
deriving DecidableEq, Repr

/-- CPython `urlparse`: `urlsplit`, then split `;params` off the path when
`;` occurs in it. -/
def pyUrlparse (urlStr : String) : ParseResult :=
  let s := pyUrlsplit urlStr
  let pp := if s.path.contains ';' then pySplitparams s.path else (s.path, [])
  ⟨String.mk s.scheme, String.mk s.netloc, String.mk pp.1, String.mk pp.2,
   String.mk s.query, String.mk s.fragment⟩

/-- CPython `SplitResult.hostname`: the host part of the netloc (after the
last `@`, inside `[...]` for bracketed hosts, else before the first `:`),
lowercased except for a `%zone` suffix; `None` when empty. -/
def hostnameOfNetloc (netloc : List Char) : Option String :=
  let hostinfo := afterLast '@' netloc
  let host :=
    if hostinfo.contains '[' then
      match splitAtFirst '[' hostinfo with
      | none => beforeFirst ':' hostinfo
      | some (_, bracketed) => beforeFirst ']' bracketed
    else beforeFirst ':' hostinfo
  if host = [] then none
  else
    match splitAtFirst '%' host with
    | none => some (String.mk (asciiLower host))
    | some (pre, post) => some (String.mk (asciiLower pre ++ '%' :: post))

/-- The `hostname` accessor used by `youtube_id` (`q.hostname`). -/
def ParseResult.hostname (r : ParseResult) : Option String :=
  hostnameOfNetloc r.netloc.data

/-- CPython `parse_qsl` with default arguments: split the query on `&`,
skip empty chunks, skip chunks without `=` and chunks with a blank value
(`keep_blank_values=False`), and unquote names and values. -/
def pyParseQsl (qs : List Char) : List (List Char × List Char) :=
  (splitOn '&' qs).filterMap (fun nv =>
    if nv = [] then none
    else
      match splitAtFirst '=' nv with
      | none => none
      | some (name, val) =>
        if val = [] then none
        else some (pyUnquotePlus name, pyUnquotePlus val))

/-- `parse_qs(qs).get(key, [None])[0]`: `parse_qs` groups the `parse_qsl`
pairs by name in encounter order, so element `[0]` of the `key` entry is
the value of the first pair named `key`; when no pair is named `key` the
default `[None]` makes the result `None`. -/
def pyParseQsGetFirst (key : String) (qs : String) : Option String :=
  (((pyParseQsl qs.data).filter (fun p => p.1 == key.data)).head?).map
    (fun p => String.mk p.2)

/-- `youtube_id` from `app.py` lines 54–59. -/
def youtube_id (url : String) : Option String :=
  let q := pyUrlparse url
  if q.hostname = some "youtu.be" then some (q.path.drop 1)
  else if (q.hostname = some "www.youtube.com" ∨ q.hostname = some "youtube.com")
          ∧ q.path = "/watch" then
    pyParseQsGetFirst "v" q.query
  else none

/-! ## Data model: profile rows, sessions, modes -/

/-- A `user_profile` row as read by `app.py` (the fields the program
uses).  `daily_chat_count` is a Python integer; `last_chat_date` is the
stored date string, `none` when the column is null. -/
structure Profile where
  id : String
  full_name : String
  approved : Bool
  can_chat : Bool
  daily_chat_count : Int
  last_chat_date : Option String
deriving DecidableEq, Repr

/-- The ephemeral session: `st.session_state.user` is present exactly when
`authenticated` is true, and then carries the user id. -/
structure Session where
  authenticated : Bool
  user_id : String
deriving DecidableEq, Repr

/-- The mutually exclusive UI outcomes of one page run. -/
inductive Mode where
  | Unauthenticated
  | PendingApproval
  | Downloader
  | ChatDisabled
  | QuotaExceeded
  | ChatReady
deriving DecidableEq, Repr

/-- The sidebar radio choice on line 131 of `app.py`. -/
inductive UiChoice where
  | Downloader
  | Chatbot
deriving DecidableEq, Repr

/-! ## Quota gate and counter update -/

/-- The stopping condition of the quota gate (lines 154–155):
`prof["last_chat_date"] == str(date.today()) and
prof["daily_chat_count"] >= 2`. -/
def quota_blocked (p : Profile) (today : String) : Bool :=
  p.last_chat_date == some today && decide (2 ≤ p.daily_chat_count)

/-- The spec's `check_and_consume` view of the quota gate: `allowed` is
false exactly when the gate on lines 154–155 stops the run; the profile is
returned unchanged on both branches (the row write happens separately, in
`bump_counter`). -/
def check_and_consume (p : Profile) (today : String) : Bool × Profile :=
  if quota_blocked p today then (false, p) else (true, p)

/-- `bump_counter` (lines 78–81): the update statement sets
`daily_chat_count = 1` and `last_chat_date = str(date.today())`
unconditionally on the user's row. -/
def bump_counter (p : Profile) (today : String) : Profile :=
  { p with daily_chat_count := 1, last_chat_date := some today }

/-! ## Mode resolution (the straight-line gate code of `app.py`) -/

/-- Mode resolution of one page run: the auth check (line 84), the
approval gate (lines 122–127, `if not prof or not prof["approved"]`), the
sidebar mode choice (line 131), the `can_chat` gate (lines 151–152) and
the quota gate (lines 154–155), in source order. -/
def resolve_mode (s : Session) (prof : Option Profile) (choice : UiChoice)
    (today : String) : Mode :=
  if s.authenticated = false then Mode.Unauthenticated
  else
    match prof with
    | none => Mode.PendingApproval
    | some p =>
      if p.approved = false then Mode.PendingApproval
      else
        match choice with
        | UiChoice.Downloader => Mode.Downloader
        | UiChoice.Chatbot =>
          if p.can_chat = false then Mode.ChatDisabled
          else if quota_blocked p today then Mode.QuotaExceeded
          else Mode.ChatReady

/-- Outcome of one run of the Chatbot branch: the profile row as left in
the store, and whether an update statement was executed. -/
structure ChatRunResult where
  profile : Profile
  wrote : Bool
deriving DecidableEq, Repr

/-- One run of the Chatbot branch (lines 150–185) for an approved profile:
the `can_chat` and quota gates stop the run without touching the store;
otherwise `llm_ok` says whether a question was asked and the completion
call succeeded — only then does `bump_counter` issue the single store
update (every other path writes nothing). -/
def chatbot_branch (p : Profile) (today : String) (llm_ok : Bool) :
    ChatRunResult :=
  if p.can_chat = false then ⟨p, false⟩
  else if quota_blocked p today then ⟨p, false⟩
  else if llm_ok then ⟨bump_counter p today, true⟩
  else ⟨p, false⟩

/-- One quota-gated chat step on a fixed day: the check of lines 154–155
followed, when allowed, by the `bump_counter` write; a blocked step leaves
the profile unchanged. -/
def chat_step (today : String) (p : Profile) : Profile :=
  if (check_and_consume p today).1 then bump_counter p today else p

/-- `n` consecutive chat steps on the same day. -/
def chat_iter (today : String) (p : Profile) : Nat → Profile
  | 0 => p
  | n + 1 => chat_step today (chat_iter today p n)

/-! ## Transcript persistence -/

/-- One transcript entry as returned by the transcript provider: the
`text` field the program reads, plus the remaining fields (`start`,
`duration`), opaque here because the program only passes them through. -/
structure TranscriptEntry (α : Type) where
  text : String
  meta : α
deriving DecidableEq, Repr

/-- The `youtube_transcripts` row built by `save_transcript`. -/
structure TranscriptRow (α : Type) where
  video_id : String
  title : String
  transcript_text : String
  transcript_json : List (TranscriptEntry α)
deriving DecidableEq, Repr

/-- Python `sep.join(items)`: the first item, then `sep + item` for each
further item; the empty join is `""`. -/
def pyJoin (sep : String) (l : List String) : String :=
  match l with
  | [] => ""
  | x :: xs => xs.foldl (fun acc s => acc ++ sep ++ s) x

/-- `save_transcript` (lines 65–73): the inserted row, with
`transcript_text = "\n".join(c["text"] for c in tr)` and
`transcript_json = tr`. -/
def save_transcript {α : Type} (vid : String)
    (tr : List (TranscriptEntry α)) : TranscriptRow α :=
  { video_id := vid
    title := "Video " ++ vid
    transcript_text := pyJoin "\n" (tr.map (fun c => c.text))
    transcript_json := tr }

/-! ## Helper lemmas -/

/-- Python `join` agrees with `String.intercalate`. -/
theorem pyJoin_eq_intercalate (sep : String) (l : List String) :
    pyJoin sep l = String.intercalate sep l := by
  cases l with
  | nil => rfl
  | cons x xs =>
    simp only [pyJoin, String.intercalate]
    induction xs generalizing x with
    | nil => rfl
    | cons y ys ih =>
      simp only [List.foldl, String.intercalate.go]
      exact ih (x ++ sep ++ y)

/-- A profile whose stored count is at most 1 always passes the quota
check, whatever its stored date. -/
theorem check_true_of_le_one (p : Profile) (today : String)
    (h : p.daily_chat_count ≤ 1) :
    (check_and_consume p today).1 = true := by
  have hb : quota_blocked p today = false := by
    have h2 : ¬ (2 ≤ p.daily_chat_count) := by omega
    simp [quota_blocked, h2]
  simp [check_and_consume, hb]

/-! ## Claim theorems -/

/-- C1: for every profile and date, `check_and_consume` returns
`allowed = false` exactly when `last_chat_date` equals `today` and
`daily_chat_count ≥ 2`; in particular a same-day count of 2 blocks, and
any other stored date (e.g. yesterday) allows even with count 5. -/
theorem check_and_consume_false_iff (p : Profile) (today : String) :
    (check_and_consume p today).1 = false ↔
      (p.last_chat_date = some today ∧ 2 ≤ p.daily_chat_count) := by
  unfold check_and_consume quota_blocked
  by_cases hb : p.last_chat_date = some today
  · by_cases hc : 2 ≤ p.daily_chat_count
    · simp [hb, hc]
    · simp [hb, hc]
  · simp [hb]

/-- Witness for C1 at the cited inputs: same-day count 2 blocks, and
yesterday's date with count 5 allows. -/
theorem check_and_consume_false_iff_w :
    (check_and_consume ⟨"u1", "Jane", true, true, 2, some "2024-01-02"⟩
        "2024-01-02").1 = false ∧
    (check_and_consume ⟨"u1", "Jane", true, true, 5, some "2024-01-01"⟩
        "2024-01-02").1 = true :=
  ⟨(check_and_consume_false_iff _ _).mpr (by exact ⟨rfl, by decide⟩),
   by
    have h := (check_and_consume_false_iff
      ⟨"u1", "Jane", true, true, 5, some "2024-01-01"⟩ "2024-01-02")
    revert h
    decide⟩

/-- C2: `bump_counter` writes `daily_chat_count = 1` and
`last_chat_date = today` unconditionally, for every prior value of both
fields — it sets, it does not increment — and leaves the other fields of
the row untouched. -/
theorem bump_counter_sets (p : Profile) (today : String) :
    (bump_counter p today).daily_chat_count = 1 ∧
    (bump_counter p today).last_chat_date = some today ∧
    (bump_counter p today).id = p.id ∧
    (bump_counter p today).full_name = p.full_name ∧
    (bump_counter p today).approved = p.approved ∧
    (bump_counter p today).can_chat = p.can_chat := by
  simp [bump_counter]

/-- C3: starting from a profile with count 0 and unset date, any number
of same-day check-then-consume steps keeps the stored count at most 1,
and the quota check allows every one of those steps. -/
theorem chat_iter_never_blocked (p0 : Profile) (today : String)
    (h0 : p0.daily_chat_count = 0) (_hd : p0.last_chat_date = none) :
    ∀ n : Nat, (chat_iter today p0 n).daily_chat_count ≤ 1 ∧
      (check_and_consume (chat_iter today p0 n) today).1 = true := by
  intro n
  induction n with
  | zero =>
    have hle : (chat_iter today p0 0).daily_chat_count ≤ 1 := by
      simp [chat_iter, h0]
    exact ⟨hle, check_true_of_le_one _ _ hle⟩
  | succ n ih =>
    have hle : (chat_iter today p0 (n + 1)).daily_chat_count ≤ 1 := by
      simp only [chat_iter, chat_step, ih.2, if_true, bump_counter]
      norm_num
    exact ⟨hle, check_true_of_le_one _ _ hle⟩

/-- Witness for C3: two steps from a fresh profile leave the count at 1
and the check still allows. -/
theorem chat_iter_never_blocked_w :
    (chat_iter "2024-01-01" ⟨"u1", "Jane", true, true, 0, none⟩
        2).daily_chat_count ≤ 1 ∧
    (check_and_consume
        (chat_iter "2024-01-01" ⟨"u1", "Jane", true, true, 0, none⟩ 2)
        "2024-01-01").1 = true :=
  chat_iter_never_blocked _ "2024-01-01" rfl rfl 2

/-- C4: with an authenticated session, an absent profile or one with
`approved = false` resolves to `PendingApproval`, whatever the remaining
profile fields, the chosen tab and the date. -/
theorem resolve_mode_pending (s : Session) (prof : Option Profile)
    (choice : UiChoice) (today : String) (hs : s.authenticated = true)
    (hp : prof = none ∨ ∃ p, prof = some p ∧ p.approved = false) :
    resolve_mode s prof choice today = Mode.PendingApproval := by
  rcases hp with h | ⟨p, hp, ha⟩
  · subst h; simp [resolve_mode, hs]
  · subst hp; simp [resolve_mode, hs, ha]

/-- Witness for C4: an authenticated session with an unapproved profile
that could otherwise chat (count 0, chat enabled) is still pending. -/
theorem resolve_mode_pending_w :
    resolve_mode ⟨true, "u1"⟩
      (some ⟨"u1", "Jane", false, true, 0, none⟩) UiChoice.Chatbot
      "2024-01-01" = Mode.PendingApproval :=
  resolve_mode_pending _ _ _ _ rfl
    (Or.inr ⟨_, rfl, rfl⟩)

/-- C5: an approved profile with `can_chat = false` entering the Chatbot
tab resolves to `ChatDisabled`, whatever `daily_chat_count` and
`last_chat_date` hold — the `can_chat` gate runs before the quota gate. -/
theorem resolve_mode_chat_disabled (s : Session) (p : Profile)
    (today : String) (hs : s.authenticated = true)
    (ha : p.approved = true) (hc : p.can_chat = false) :
    resolve_mode s (some p) UiChoice.Chatbot today = Mode.ChatDisabled := by
  simp [resolve_mode, hs, ha, hc]

/-- Witness for C5: even a profile already over quota (count 9 today) is
reported `ChatDisabled`, not `QuotaExceeded`, when `can_chat` is false. -/
theorem resolve_mode_chat_disabled_w :
    resolve_mode ⟨true, "u1"⟩
      (some ⟨"u1", "Jane", true, false, 9, some "2024-01-01"⟩)
      UiChoice.Chatbot "2024-01-01" = Mode.ChatDisabled :=
  resolve_mode_chat_disabled _ _ _ rfl rfl rfl

/-- C6, counterexample: with the short-link host and a two-segment path,
`youtube_id` returns the whole remainder of the path instead of the `None`
the claim requires for "any other host or path shape"; an empty path
likewise yields the empty identifier `""` rather than `None`. -/
theorem youtube_id_counterexample :
    youtube_id "https://youtu.be/abc/def" = some "abc/def" ∧
    youtube_id "https://youtu.be/" = some "" :=
  ⟨by decide, by decide⟩

/-- C6 (amended): `youtube_id` returns a value only when the parsed
hostname is `youtu.be` (and then the value is the path minus its first
character, whatever the path's shape — it need not be a sole segment), or
when the hostname is `youtube.com`/`www.youtube.com` with path exactly
`/watch` (and then the value is the first non-blank `v` query parameter,
when present); every other host or path yields `None`, and the three
cited evaluations hold. -/
theorem youtube_id_shapes :
    (∀ url : String, (youtube_id url).isSome = true →
      (pyUrlparse url).hostname = some "youtu.be" ∨
      (((pyUrlparse url).hostname = some "www.youtube.com" ∨
        (pyUrlparse url).hostname = some "youtube.com") ∧
       (pyUrlparse url).path = "/watch")) ∧
    (∀ url : String, (pyUrlparse url).hostname = some "youtu.be" →
      youtube_id url = some ((pyUrlparse url).path.drop 1)) ∧
    youtube_id "https://youtu.be/abc123" = some "abc123" ∧
    youtube_id "https://www.youtube.com/watch?v=abc123&t=5" = some "abc123" ∧
    youtube_id "https://example.com/abc123" = none := by
  refine ⟨?_, ?_, by decide, by decide, by decide⟩
  · intro url h
    by_cases h1 : (pyUrlparse url).hostname = some "youtu.be"
    · exact Or.inl h1
    · by_cases h2 : ((pyUrlparse url).hostname = some "www.youtube.com" ∨
          (pyUrlparse url).hostname = some "youtube.com") ∧
          (pyUrlparse url).path = "/watch"
      · exact Or.inr h2
      · simp [youtube_id, h1, h2] at h
  · intro url h1
    simp [youtube_id, h1]

/-- Witness for C6 (amended): the short-link example satisfies the shape
characterization. -/
theorem youtube_id_shapes_w :
    (pyUrlparse "https://youtu.be/abc123").hostname = some "youtu.be" ∨
    (((pyUrlparse "https://youtu.be/abc123").hostname =
        some "www.youtube.com" ∨
      (pyUrlparse "https://youtu.be/abc123").hostname =
        some "youtube.com") ∧
     (pyUrlparse "https://youtu.be/abc123").path = "/watch") :=
  youtube_id_shapes.1 "https://youtu.be/abc123" (by decide)

/-- C7: when the quota gate fires (`last_chat_date = today`,
`daily_chat_count ≥ 2`), the check returns `allowed = false` with the
very same profile, and no run of the Chatbot branch issues a store
update, whether or not a completion was attempted. -/
theorem quota_blocked_frame (p : Profile) (today : String)
    (hd : p.last_chat_date = some today) (hc : 2 ≤ p.daily_chat_count) :
    check_and_consume p today = (false, p) ∧
    ∀ llm_ok : Bool, chatbot_branch p today llm_ok = ⟨p, false⟩ := by
  have hb : quota_blocked p today = true := by simp [quota_blocked, hd, hc]
  refine ⟨by simp [check_and_consume, hb], ?_⟩
  intro ok
  by_cases hcc : p.can_chat = false <;> simp [chatbot_branch, hcc, hb]

/-- Witness for C7: a profile at the limit today is blocked, unchanged,
and never written, for both outcomes of the completion call. -/
theorem quota_blocked_frame_w :
    check_and_consume ⟨"u1", "Jane", true, true, 2, some "2024-01-01"⟩
        "2024-01-01" =
      (false, ⟨"u1", "Jane", true, true, 2, some "2024-01-01"⟩) ∧
    chatbot_branch ⟨"u1", "Jane", true, true, 2, some "2024-01-01"⟩
        "2024-01-01" true =
      ⟨⟨"u1", "Jane", true, true, 2, some "2024-01-01"⟩, false⟩ ∧
    chatbot_branch ⟨"u1", "Jane", true, true, 2, some "2024-01-01"⟩
        "2024-01-01" false =
      ⟨⟨"u1", "Jane", true, true, 2, some "2024-01-01"⟩, false⟩ :=
  ⟨(quota_blocked_frame _ _ rfl (by decide)).1,
   (quota_blocked_frame _ _ rfl (by decide)).2 true,
   (quota_blocked_frame _ _ rfl (by decide)).2 false⟩

/-- C8: `resolve_mode` is deterministic — two evaluations on identical
inputs coincide — and its output depends only on the gate-relevant fields
of its two inputs (`authenticated`; `approved`, `can_chat`,
`daily_chat_count`, `last_chat_date`), so it has no hidden state; as a
total function over immutable values it modifies neither input. -/
theorem resolve_mode_pure :
    (∀ (s : Session) (prof : Option Profile) (choice : UiChoice)
        (today : String),
       resolve_mode s prof choice today =
         resolve_mode s prof choice today) ∧
    (∀ (s t : Session) (p q : Profile) (choice : UiChoice) (today : String),
       s.authenticated = t.authenticated →
       p.approved = q.approved → p.can_chat = q.can_chat →
       p.daily_chat_count = q.daily_chat_count →
       p.last_chat_date = q.last_chat_date →
       resolve_mode s (some p) choice today =
         resolve_mode t (some q) choice today) := by
  refine ⟨fun _ _ _ _ => rfl, ?_⟩
  intro s t p q choice today h1 h2 h3 h4 h5
  simp [resolve_mode, quota_blocked, h1, h2, h3, h4, h5]

/-- Witness for C8: two sessions and profiles differing only in user id
and display name resolve identically. -/
theorem resolve_mode_pure_w :
    resolve_mode ⟨true, "u1"⟩ (some ⟨"u1", "Jane", true, true, 0, none⟩)
        UiChoice.Chatbot "2024-01-01" =
      resolve_mode ⟨true, "u2"⟩ (some ⟨"u2", "John", true, true, 0, none⟩)
        UiChoice.Chatbot "2024-01-01" :=
  resolve_mode_pure.2 _ _ _ _ _ _ rfl rfl rfl rfl rfl

/-- C9: a URL parsing to host `youtube.com`/`www.youtube.com` with path
`/watch` whose query yields no `v` parameter gives `None` — not an
exception and not an empty string. -/
theorem watch_without_v_is_none (url : String)
    (hh : (pyUrlparse url).hostname = some "youtube.com" ∨
          (pyUrlparse url).hostname = some "www.youtube.com")
    (hp : (pyUrlparse url).path = "/watch")
    (hv : ∀ pr ∈ pyParseQsl (pyUrlparse url).query.data,
        pr.1 ≠ "v".data) :
    youtube_id url = none := by
  have hfil : (pyParseQsl (pyUrlparse url).query.data).filter
      (fun pr => pr.1 == "v".data) = [] := by
    rw [List.filter_eq_nil_iff]
    intro a ha
    simpa using hv a ha
  rcases hh with h | h <;>
    simp [youtube_id, h, hp, pyParseQsGetFirst, hfil]

/-- Witness for C9: a `/watch` URL whose only parameter is `t`. -/
theorem watch_without_v_is_none_w :
    youtube_id "https://www.youtube.com/watch?t=5" = none :=
  watch_without_v_is_none _ (Or.inr (by decide)) (by decide) (by decide)

/-- C10: for every video id and nonempty transcript, the stored
`transcript_text` is the entries' `text` fields joined with newline
characters in their original order, and the stored `transcript_json` is
the entry sequence unchanged. -/
theorem save_transcript_stores (α : Type) (vid : String)
    (tr : List (TranscriptEntry α)) (_hne : tr ≠ []) :
    (save_transcript vid tr).transcript_text =
      String.intercalate "\n" (tr.map (fun c => c.text)) ∧
    (save_transcript vid tr).transcript_json = tr := by
  constructor
  · show pyJoin "\n" (tr.map (fun c => c.text)) = _
    exact pyJoin_eq_intercalate _ _
  · rfl

/-- Witness for C10 on a concrete two-entry transcript. -/
theorem save_transcript_stores_w :
    (save_transcript "vid1"
        [({ text := "hello", meta := () } : TranscriptEntry Unit),
         { text := "world", meta := () }]).transcript_text =
      String.intercalate "\n"
        ([({ text := "hello", meta := () } : TranscriptEntry Unit),
          { text := "world", meta := () }].map (fun c => c.text)) ∧
    (save_transcript "vid1"
        [({ text := "hello", meta := () } : TranscriptEntry Unit),
         { text := "world", meta := () }]).transcript_json =
      [({ text := "hello", meta := () } : TranscriptEntry Unit),
       { text := "world", meta := () }] :=
  save_transcript_stores Unit "vid1" _ (by decide)

end YtApp
